import Mathlib

/-!
Shallow embedding of SuperRest (src/index.js), a thin wrapper around the
supertest request-dispatch library.  The `SuperRest` class holds three
immutable configuration fields; its `test` method validates the HTTP verb,
resolves the request path from the configured prefixes, and returns a
pending request chain with a response-assertion callback (`expect`)
attached; the CRUD aliases (`create`, `read`, `retrieve`, `update`,
`patch`, `delete`, `destroy`) forward to `test` with fixed verbs and
default-merged options.

JavaScript values are embedded explicitly: an absent (`undefined`) value
is `Option.none`; truthiness of strings (`"" `is falsy) and booleans is
spelled out at each use site mirroring the source; template-literal
interpolation of an undefined header lookup renders as `"undefined"`.
The application handler (`this.app`) is passed through unchanged to the
dispatch collaborator and carries no behaviour of its own, so it is not
modelled.  Fallible code (the `throw` statements) is embedded as
`Except String`.
-/

/-- A JavaScript regular expression as the assertion code observes it:
`source` and `flags` are used when the value is interpolated into an error
message (a RegExp stringifies as `/source/flags`), and `accepts s` is the
truthiness of `s.match(r)`. -/
structure RegExpV where
  source : String
  flags : String
  accepts : String → Bool

/-- Template-literal rendering of a RegExp value: `/source/flags`. -/
def RegExpV.jsString (r : RegExpV) : String :=
  "/" ++ r.source ++ "/" ++ r.flags

/-- A JavaScript value stored in an `expectedContentType` option.  The
source stores the value untouched and only ever inspects it through
`_.isString` and `_.isRegExp`, so malformed values (numbers, booleans)
are representable alongside the documented string/RegExp ones. -/
inductive CTVal where
  | str (s : String)
  | pat (r : RegExpV)
  | num (n : Int)
  | boolean (b : Bool)

/-- `_.isString` on a possibly-undefined content-type value. -/
def CTVal.isString : CTVal → Bool
  | .str _ => true
  | _ => false

/-- `_.isRegExp` on a possibly-undefined content-type value. -/
def CTVal.isRegExp : CTVal → Bool
  | .pat _ => true
  | _ => false

/-- A JavaScript value stored in a per-call `pathPrefix` option: the
documented type is `boolean|string`. -/
inductive PrefixVal where
  | str (s : String)
  | boolean (b : Bool)
deriving DecidableEq

/-- JavaScript truthiness of a `pathPrefix` value: `false` and the empty
string are falsy. -/
def PrefixVal.jsTruthy : PrefixVal → Bool
  | .str s => s != ""
  | .boolean b => b

/-- Truthiness of a possibly-undefined `pathPrefix` value (`undefined` is
falsy). -/
def jsTruthyPrefixOpt : Option PrefixVal → Bool
  | none => false
  | some v => v.jsTruthy

/-- Template-literal rendering of a `pathPrefix` value: strings render as
themselves and booleans as `true`/`false`. -/
def PrefixVal.jsString : PrefixVal → String
  | .str s => s
  | .boolean true => "true"
  | .boolean false => "false"

/-- Template-literal rendering of a possibly-undefined `pathPrefix`
value. -/
def jsStringPrefixOpt : Option PrefixVal → String
  | none => "undefined"
  | some v => v.jsString

/-- JavaScript `v || d` for a possibly-undefined string `v`: the default
`d` is used when `v` is `undefined` or the (falsy) empty string. -/
def jsOrString (v : Option String) (d : String) : String :=
  match v with
  | none => d
  | some s => if s = "" then d else s

/-- Truthiness of the result of a header lookup (`undefined` and `""` are
falsy). -/
def jsTruthyHeader : Option String → Bool
  | none => false
  | some t => t != ""

/-- Template-literal rendering of a header lookup result: an absent header
(`undefined`) interpolates as the string `undefined`. -/
def headerText : Option String → String
  | none => "undefined"
  | some t => t

/-- A supertest response as the assertion code observes it: `status` is
the numeric status code and `contentType` the result of the
case-insensitive lookup `res.get('Content-Type')`, `none` when the
response carries no such header. -/
structure Response where
  status : Nat
  contentType : Option String

/-- The per-call options object accepted by `test`/`expect` and the CRUD
aliases.  Every recognized key may be absent (`undefined`). -/
structure Options where
  expectedStatus : Option Nat := none
  expectedContentType : Option CTVal := none
  pathPrefix : Option PrefixVal := none
  method : Option String := none

/-- A SuperRest instance: the three configuration fields stored by the
constructor (`this.app` is omitted, see the module docstring). -/
structure SuperRest where
  expectedContentType : Option CTVal
  pathPrefix : String
  updateMethod : String

/-- The options object accepted by the constructor. -/
structure CtorOptions where
  expectedContentType : Option CTVal := none
  pathPrefix : Option String := none
  updateMethod : Option String := none

/-- `new SuperRest(app, options)` — `options = options || {}` then
`this.expectedContentType = options.expectedContentType`,
`this.pathPrefix = options.pathPrefix || ''`,
`this.updateMethod = options.updateMethod || 'PUT'`. -/
def SuperRest.new (options : Option CtorOptions) : SuperRest :=
  let o := options.getD {}
  { expectedContentType := o.expectedContentType
    pathPrefix := jsOrString o.pathPrefix ""
    updateMethod := jsOrString o.updateMethod "PUT" }

/-- The verbs for which the supertest chain exposes a request function
(`typeof(test[testMethod]) == 'function'`): the `methods` package, i.e.
Node's `http.METHODS` lower-cased, plus supertest's `del` alias.
Modelled from the dispatch collaborator's published capability set; the
collaborator itself is outside this repository. -/
def supertestMethods : List String :=
  ["acl", "bind", "checkout", "connect", "copy", "delete", "get", "head",
   "link", "lock", "m-search", "merge", "mkactivity", "mkcalendar", "mkcol",
   "move", "notify", "options", "patch", "post", "propfind", "proppatch",
   "purge", "put", "rebind", "report", "search", "source", "subscribe",
   "trace", "unbind", "unlink", "unlock", "unsubscribe", "del"]

/-- JavaScript `String.prototype.toLowerCase()` on the ASCII strings the
source handles: each character lower-cased. -/
def jsToLowerCase (s : String) : String :=
  String.mk (s.data.map Char.toLower)

/-- Lines 75-80 of src/index.js: the request path.  `options.pathPrefix`,
when truthy, is interpolated in front of the path (a boolean `true`
interpolates as the string `true`); otherwise a non-empty instance prefix
is prepended when `options.pathPrefix` is strictly `undefined` or
strictly `true`; otherwise the path is used as is. -/
def resolveTestPath (instancePrefix : String) (optPrefix : Option PrefixVal)
    (path : String) : String :=
  if jsTruthyPrefixOpt optPrefix then
    jsStringPrefixOpt optPrefix ++ path
  else if instancePrefix ≠ "" ∧ (optPrefix = none ∨ optPrefix = some (.boolean true)) then
    instancePrefix ++ path
  else
    path

/-- `if (body) test = test.send(body)`: the body is attached to the
outgoing request only when truthy.  The payload itself is opaque to the
source and modelled as a string. -/
def sentBody : Option String → Option String
  | none => none
  | some b => if b = "" then none else some b

/-- The pending supertest chain returned by `test`: the dispatched verb
and path, the body attached by `send`, and the response-assertion
callback `res => this.expect(res, options)`, which closes over the
instance and the per-call options recorded here. -/
structure Chain where
  method : String
  path : String
  sent : Option String
  inst : SuperRest
  opts : Options

/-- Line 116 of src/index.js:
`options.expectedStatus !== undefined ? options.expectedStatus : 200`. -/
def resolvedExpectedStatus (options : Options) : Nat :=
  match options.expectedStatus with
  | some s => s
  | none => 200

/-- Line 121 of src/index.js: `options.expectedContentType !== undefined ?
options.expectedContentType : this.expectedContentType`. -/
def SuperRest.resolvedContentType (inst : SuperRest) (options : Options) :
    Option CTVal :=
  match options.expectedContentType with
  | some v => some v
  | none => inst.expectedContentType

/-- Lines 122-128 of src/index.js, the content-type if/else-if chain over
the resolved expectation `e` and the header lookup `ct`:
`if (_.isString(e) && ct !== e) throw ...;
else if (_.isRegExp(e) && !ct) throw ...;
else if (_.isRegExp(e) && !ct.match(e)) throw ...`.
A strict comparison of the header lookup with a string `s` mismatches
exactly when the lookup is not `some s` (an `undefined` lookup is never
strictly equal to a string). -/
def contentTypeAssertion (e : Option CTVal) (ct : Option String) :
    Except String Unit :=
  match e with
  | some (.str s) =>
      if ct ≠ some s then
        .error ("Expected HTTP Content-Type header \"" ++ headerText ct
          ++ "\" to equal \"" ++ s ++ "\"")
      else
        .ok ()
  | some (.pat r) =>
      if ¬ jsTruthyHeader ct then
        .error ("Expected missing HTTP Content-Type header to match "
          ++ r.jsString)
      else if ¬ r.accepts (ct.getD "") then
        .error ("Expected HTTP Content-Type header \"" ++ ct.getD ""
          ++ "\" to match " ++ r.jsString)
      else
        .ok ()
  | _ => .ok ()

/-- `SuperRest.prototype.expect(res, options)` (lines 114-129 of
src/index.js): the status gate, then the content-type chain on the
resolved expectation. -/
def SuperRest.expect (inst : SuperRest) (res : Response) (options : Options) :
    Except String Unit :=
  let expectedStatus := resolvedExpectedStatus options
  if res.status ≠ expectedStatus then
    .error ("Expected HTTP status code " ++ toString res.status
      ++ " to equal " ++ toString expectedStatus)
  else
    contentTypeAssertion (inst.resolvedContentType options) res.contentType

/-- `SuperRest.prototype.test(method, path, body, options)` (lines 65-93
of src/index.js).  `options = options || {}`; the verb
`(method || 'GET').toLowerCase()` is checked against the dispatch
collaborator's capability set before anything else — the `throw` is
embedded as an `Except.error` carrying no request chain, so an
unsupported verb produces no dispatch; otherwise the chain is built from
the resolved path, the (truthy) body and the assertion callback's
closure. -/
def SuperRest.test (inst : SuperRest) (method : Option String) (path : String)
    (body : Option String) (options : Option Options) : Except String Chain :=
  let o := options.getD {}
  let testMethod := jsToLowerCase (jsOrString method "GET")
  if testMethod ∉ supertestMethods then
    .error ("supertest has no \"" ++ testMethod ++ "\" function")
  else
    .ok { method := testMethod
          path := resolveTestPath inst.pathPrefix o.pathPrefix path
          sent := sentBody body
          inst := inst
          opts := o }

/-- The assertion the chain will run against the eventual response:
`res => this.expect(res, options)`. -/
def Chain.assert (c : Chain) (res : Response) : Except String Unit :=
  SuperRest.expect c.inst res c.opts

/-- `_.defaults({}, options, { expectedStatus: d })`: the caller's own
defined keys are kept and `expectedStatus` is filled from the defaults
source only when the caller leaves it undefined. -/
def lodashDefaultsStatus (o : Options) (d : Nat) : Options :=
  match o.expectedStatus with
  | some _ => o
  | none => { o with expectedStatus := some d }

/-- `create(path, body, options)` (lines 148-152 of src/index.js). -/
def SuperRest.create (inst : SuperRest) (path : String) (body : Option String)
    (options : Option Options) : Except String Chain :=
  SuperRest.test inst (some "POST") path body
    (some (lodashDefaultsStatus (options.getD {}) 201))

/-- `read(path, options)` (lines 165-167 of src/index.js). -/
def SuperRest.read (inst : SuperRest) (path : String)
    (options : Option Options) : Except String Chain :=
  SuperRest.test inst (some "GET") path none options

/-- `retrieve(...args)` forwards to `read` (lines 180-182). -/
def SuperRest.retrieve (inst : SuperRest) (path : String)
    (options : Option Options) : Except String Chain :=
  SuperRest.read inst path options

/-- `update(path, body, options)` (lines 197-200 of src/index.js):
`options = options || {}` then
`this.test(options.method || this.updateMethod, path, body, options)`. -/
def SuperRest.update (inst : SuperRest) (path : String) (body : Option String)
    (options : Option Options) : Except String Chain :=
  let o := options.getD {}
  SuperRest.test inst (some (jsOrString o.method inst.updateMethod)) path body
    (some o)

/-- `patch(path, body, options)` (lines 215-217 of src/index.js). -/
def SuperRest.patch (inst : SuperRest) (path : String) (body : Option String)
    (options : Option Options) : Except String Chain :=
  SuperRest.test inst (some "PATCH") path body options

/-- `delete(path, body, options)` (lines 232-234 of src/index.js). -/
def SuperRest.delete (inst : SuperRest) (path : String) (body : Option String)
    (options : Option Options) : Except String Chain :=
  SuperRest.test inst (some "DELETE") path body options

/-- `destroy(...args)` forwards to `delete` (lines 249-251). -/
def SuperRest.destroy (inst : SuperRest) (path : String) (body : Option String)
    (options : Option Options) : Except String Chain :=
  SuperRest.delete inst path body options

/-- The RegExp of the repository's own examples,
`/^application\/json/`: source `^application\/json`, no flags, matching
any string that starts with `application/json`. -/
def jsonPattern : RegExpV :=
  { source := "^application\\/json"
    flags := ""
    accepts := fun s => "application/json".data.isPrefixOf s.data }

/-- C1: the claim fails on the code.  With an instance prefix `/api` and a
per-call `pathPrefix` that is explicitly the boolean `true`, `test` does not
prepend the instance prefix: `true` is truthy, so the first branch of the
path resolution fires and prepends the template-literal rendering of the
boolean, issuing the request to `true/test` instead of `/api/test`.  The
`options.pathPrefix === true` disjunct of the else branch, whose evident
purpose is to select the instance prefix, is unreachable. -/
theorem test_pathPrefix_true_prepends_stringified_boolean :
    SuperRest.test ⟨none, "/api", "PUT"⟩ (some "GET") "/test" none
        (some { pathPrefix := some (.boolean true) }) =
      .ok { method := "get", path := "true/test", sent := none,
            inst := ⟨none, "/api", "PUT"⟩,
            opts := { pathPrefix := some (.boolean true) } } := rfl

/-- C4: `test` lower-cases the supplied verb (defaulting to `GET` when the
verb is absent) and checks it against the dispatch collaborator's supported
verbs before building any request: an unsupported verb yields exactly the
error `supertest has no "<verb>" function` naming the lower-cased verb — an
`Except.error` carrying no request chain, so nothing is dispatched — and any
chain that is produced carries the validated lower-cased verb. -/
theorem test_method_validation (inst : SuperRest) (method : Option String)
    (path : String) (body : Option String) (options : Option Options) :
    (jsToLowerCase (jsOrString method "GET") ∉ supertestMethods →
      SuperRest.test inst method path body options =
        .error ("supertest has no \"" ++ jsToLowerCase (jsOrString method "GET")
          ++ "\" function")) ∧
    (∀ c, SuperRest.test inst method path body options = .ok c →
      c.method = jsToLowerCase (jsOrString method "GET") ∧
      c.method ∈ supertestMethods) := by
  constructor
  · intro h
    simp [SuperRest.test, h]
  · intro c hc
    by_cases h : jsToLowerCase (jsOrString method "GET") ∈ supertestMethods
    · unfold SuperRest.test at hc
      rw [if_neg (by simpa using h)] at hc
      cases hc
      exact ⟨rfl, h⟩
    · unfold SuperRest.test at hc
      rw [if_pos (by simpa using h)] at hc
      cases hc

/-- C4 at a concrete input: `UNKNOWN` is not a supertest verb, so the call
fails synchronously with the message naming `unknown` and produces no
request chain. -/
theorem test_method_validation_unknown :
    SuperRest.test ⟨none, "", "PUT"⟩ (some "UNKNOWN") "/x" none none =
      .error "supertest has no \"unknown\" function" :=
  (test_method_validation ⟨none, "", "PUT"⟩ (some "UNKNOWN") "/x" none
    none).1 (by decide)

/-- C5: `expect` resolves the expected status as `options.expectedStatus`
when present and 200 otherwise, and a mismatching response status fails with
exactly `Expected HTTP status code <actual> to equal <expected>`.  The gate
runs before any content-type check: the error is produced whatever the
content-type configuration of the instance, the options and the response. -/
theorem expect_status_gate (inst : SuperRest) (res : Response) (o : Options)
    (h : res.status ≠ o.expectedStatus.getD 200) :
    resolvedExpectedStatus o = o.expectedStatus.getD 200 ∧
    SuperRest.expect inst res o =
      .error ("Expected HTTP status code " ++ toString res.status
        ++ " to equal " ++ toString (o.expectedStatus.getD 200)) := by
  have hres : resolvedExpectedStatus o = o.expectedStatus.getD 200 := by
    rcases ho : o.expectedStatus with _ | s <;>
      simp [resolvedExpectedStatus, ho]
  refine ⟨hres, ?_⟩
  unfold SuperRest.expect
  rw [hres, if_pos h]

/-- C5 at a concrete input: a 404 response against default options fails on
the status gate even though the instance's content-type expectation also
mismatches the response. -/
theorem expect_status_gate_example :
    SuperRest.expect ⟨some (.str "application/json"), "", "PUT"⟩
        ⟨404, some "text/html"⟩ {} =
      .error "Expected HTTP status code 404 to equal 200" :=
  (expect_status_gate ⟨some (.str "application/json"), "", "PUT"⟩
    ⟨404, some "text/html"⟩ {} (by decide)).2

/-- The resolved expected status is `options.expectedStatus` when present
and 200 otherwise. -/
theorem resolvedExpectedStatus_eq_getD (o : Options) :
    resolvedExpectedStatus o = o.expectedStatus.getD 200 := by
  rcases ho : o.expectedStatus with _ | s <;>
    simp [resolvedExpectedStatus, ho]

/-- C2: the claim fails on the code.  With a malformed
`expectedContentType` — the number 42 — configured at construction, the
assertion step raises no error at all on a 200 response: the value is
neither a string nor a RegExp, so every branch of the content-type chain is
skipped and the assertion succeeds silently. -/
theorem expect_malformed_number_silently_passes :
    SuperRest.expect ⟨some (.num 42), "", "PUT"⟩ ⟨200, some "text/html"⟩ {} =
      .ok () := rfl

/-- C2 (amended): a malformed `expectedContentType` — a value that is
neither a string nor a pattern, e.g. a number or a boolean — is never
surfaced: `_.isString` and `_.isRegExp` both reject it, so the assertion
step performs no content-type check at all and succeeds without error
whenever the status matches. -/
theorem expect_malformed_content_type_skipped (inst : SuperRest)
    (res : Response) (o : Options) (v : CTVal)
    (hs : v.isString = false) (hr : v.isRegExp = false)
    (hv : inst.resolvedContentType o = some v)
    (hst : res.status = o.expectedStatus.getD 200) :
    SuperRest.expect inst res o = .ok () := by
  simp only [SuperRest.expect, resolvedExpectedStatus_eq_getD, hst, ne_eq,
    not_true_eq_false, if_false, hv]
  cases v with
  | str s => simp [CTVal.isString] at hs
  | pat r => simp [CTVal.isRegExp] at hr
  | num n => rfl
  | boolean b => rfl

/-- C2 (amended) at a concrete input: a boolean `expectedContentType`
supplied per call is silently ignored on a 200 response. -/
theorem expect_malformed_content_type_skipped_example :
    SuperRest.expect ⟨none, "", "PUT"⟩ ⟨200, none⟩
        { expectedContentType := some (.boolean true) } = .ok () :=
  expect_malformed_content_type_skipped ⟨none, "", "PUT"⟩ ⟨200, none⟩
    { expectedContentType := some (.boolean true) } (.boolean true)
    rfl rfl rfl rfl

/-- C3: the claim fails on the code.  For a missing Content-Type header the
thrown message embeds the JavaScript rendering of the undefined header
lookup — the string `undefined` — and not the empty string the claim
prescribes: the two messages differ. -/
theorem expect_missing_header_message_embeds_undefined :
    SuperRest.expect ⟨none, "", "PUT"⟩ ⟨200, none⟩
        { expectedContentType := some (.str "application/json") } =
      .error "Expected HTTP Content-Type header \"undefined\" to equal \"application/json\"" ∧
    "Expected HTTP Content-Type header \"undefined\" to equal \"application/json\"" ≠
      "Expected HTTP Content-Type header \"\" to equal \"application/json\"" :=
  ⟨rfl, by decide⟩

/-- C3 (amended): for a resolved string expectation the assertion step
requires an exact match against the header lookup; any mismatch —
including a missing header, whose undefined lookup is never strictly equal
to a string and is interpolated into the message as `undefined` — raises
exactly `Expected HTTP Content-Type header "<actual-or-undefined>" to
equal "<expected>"`. -/
theorem expect_string_content_type_exact (inst : SuperRest) (res : Response)
    (o : Options) (s : String)
    (hct : inst.resolvedContentType o = some (.str s))
    (hst : res.status = o.expectedStatus.getD 200) :
    SuperRest.expect inst res o =
      if res.contentType = some s then .ok ()
      else
        .error ("Expected HTTP Content-Type header \""
          ++ headerText res.contentType ++ "\" to equal \"" ++ s ++ "\"") := by
  simp only [SuperRest.expect, resolvedExpectedStatus_eq_getD, hst, ne_eq,
    not_true_eq_false, if_false, hct]
  by_cases h : res.contentType = some s
  · rw [if_pos h]
    simp [contentTypeAssertion, h]
  · rw [if_neg h]
    simp [contentTypeAssertion, h]

/-- C3 (amended) at a concrete input: an inexact header mismatches the
string expectation and the message embeds the actual header verbatim. -/
theorem expect_string_content_type_exact_example :
    SuperRest.expect ⟨some (.str "application/xml"), "", "PUT"⟩
        ⟨200, some "application/json; charset=utf-8"⟩ {} =
      .error "Expected HTTP Content-Type header \"application/json; charset=utf-8\" to equal \"application/xml\"" := by
  rw [expect_string_content_type_exact ⟨some (.str "application/xml"), "", "PUT"⟩
    ⟨200, some "application/json; charset=utf-8"⟩ {} "application/xml" rfl rfl]
  rfl

/-- C6: the content-type expectation is resolved as
`options.expectedContentType` when present and the instance default
otherwise; a present per-call value makes the instance default irrelevant
to the whole assertion; when neither is configured no content-type check
is performed at all (a status-matching response passes with no error); and
a response matching only the instance default still fails against a
mismatching per-call string value. -/
theorem expect_content_type_resolution (inst inst2 : SuperRest)
    (res : Response) (o : Options) :
    (o.expectedContentType = none →
      inst.resolvedContentType o = inst.expectedContentType) ∧
    (∀ v, o.expectedContentType = some v →
      inst.resolvedContentType o = some v ∧
      SuperRest.expect inst res o = SuperRest.expect inst2 res o) ∧
    (o.expectedContentType = none → inst.expectedContentType = none →
      res.status = o.expectedStatus.getD 200 →
      SuperRest.expect inst res o = .ok ()) ∧
    (∀ s t, o.expectedContentType = some (.str s) →
      res.contentType = some t → t ≠ s →
      res.status = o.expectedStatus.getD 200 →
      SuperRest.expect inst res o =
        .error ("Expected HTTP Content-Type header \"" ++ t
          ++ "\" to equal \"" ++ s ++ "\"")) := by
  refine ⟨?_, ?_, ?_, ?_⟩
  · intro h
    simp [SuperRest.resolvedContentType, h]
  · intro v h
    constructor
    · simp [SuperRest.resolvedContentType, h]
    · simp [SuperRest.expect, SuperRest.resolvedContentType, h]
  · intro h1 h2 hst
    simp [SuperRest.expect, resolvedExpectedStatus_eq_getD, hst,
      SuperRest.resolvedContentType, h1, h2, contentTypeAssertion]
  · intro s t h hct hne hst
    have : res.contentType ≠ some s := by
      simp [hct, hne]
    simp [SuperRest.expect, resolvedExpectedStatus_eq_getD, hst,
      SuperRest.resolvedContentType, h, contentTypeAssertion, this, hct,
      headerText, hne]

/-- C6 at a concrete input: the response matches the instance default
exactly, yet the mismatching per-call expectation wins and the assertion
fails against the per-call value. -/
theorem expect_content_type_resolution_example :
    SuperRest.expect
        ⟨some (.str "application/json; charset=utf-8"), "", "PUT"⟩
        ⟨200, some "application/json; charset=utf-8"⟩
        { expectedContentType := some (.str "text/plain") } =
      .error "Expected HTTP Content-Type header \"application/json; charset=utf-8\" to equal \"text/plain\"" :=
  ((expect_content_type_resolution
      ⟨some (.str "application/json; charset=utf-8"), "", "PUT"⟩
      ⟨some (.str "application/json; charset=utf-8"), "", "PUT"⟩
      ⟨200, some "application/json; charset=utf-8"⟩
      { expectedContentType := some (.str "text/plain") }).2.2.2
    "text/plain" "application/json; charset=utf-8" rfl rfl (by decide) rfl)

/-- C7: the claim fails on the code.  A Content-Type header that is present
but empty is reported with the missing-header message: the chain tests
JavaScript truthiness, not presence, so an empty header takes the branch
`Expected missing HTTP Content-Type header to match <pattern>` instead of
the claimed `Expected HTTP Content-Type header "" to match <pattern>`. -/
theorem expect_empty_header_reported_missing :
    SuperRest.expect ⟨none, "", "PUT"⟩ ⟨200, some ""⟩
        { expectedContentType := some (.pat jsonPattern) } =
      .error "Expected missing HTTP Content-Type header to match /^application\\/json/" ∧
    "Expected missing HTTP Content-Type header to match /^application\\/json/" ≠
      "Expected HTTP Content-Type header \"\" to match /^application\\/json/" :=
  ⟨rfl, by decide⟩

/-- C7 (amended): for a resolved pattern expectation the assertion step
requires the header lookup to be truthy — present and non-empty — and to
match the pattern: an absent or empty header raises exactly
`Expected missing HTTP Content-Type header to match <pattern>`; a
non-empty, non-matching header raises exactly
`Expected HTTP Content-Type header "<actual>" to match <pattern>`; a
non-empty matching header raises no error. -/
theorem expect_pattern_content_type (inst : SuperRest) (res : Response)
    (o : Options) (r : RegExpV)
    (hct : inst.resolvedContentType o = some (.pat r))
    (hst : res.status = o.expectedStatus.getD 200) :
    (res.contentType = none ∨ res.contentType = some "" →
      SuperRest.expect inst res o =
        .error ("Expected missing HTTP Content-Type header to match "
          ++ r.jsString)) ∧
    (∀ t, res.contentType = some t → t ≠ "" → r.accepts t = false →
      SuperRest.expect inst res o =
        .error ("Expected HTTP Content-Type header \"" ++ t
          ++ "\" to match " ++ r.jsString)) ∧
    (∀ t, res.contentType = some t → t ≠ "" → r.accepts t = true →
      SuperRest.expect inst res o = .ok ()) := by
  refine ⟨?_, ?_, ?_⟩
  · intro h
    rcases h with h | h <;>
      simp [SuperRest.expect, resolvedExpectedStatus_eq_getD, hst, hct,
        contentTypeAssertion, jsTruthyHeader, h]
  · intro t ht hne hacc
    simp [SuperRest.expect, resolvedExpectedStatus_eq_getD, hst, hct,
      contentTypeAssertion, jsTruthyHeader, ht, hne, hacc]
  · intro t ht hne hacc
    simp [SuperRest.expect, resolvedExpectedStatus_eq_getD, hst, hct,
      contentTypeAssertion, jsTruthyHeader, ht, hne, hacc]

/-- C7 (amended) at a concrete input: a non-empty header matching the
pattern of the repository's examples passes with no error. -/
theorem expect_pattern_content_type_example :
    SuperRest.expect ⟨some (.pat jsonPattern), "", "PUT"⟩
        ⟨200, some "application/json; charset=utf-8"⟩ {} = .ok () :=
  (expect_pattern_content_type ⟨some (.pat jsonPattern), "", "PUT"⟩
    ⟨200, some "application/json; charset=utf-8"⟩ {} jsonPattern rfl rfl).2.2
    "application/json; charset=utf-8" rfl (by decide) (by decide)

/-- C8: `create` issues a POST through `test` with the caller's options
merged so that `expectedStatus` defaults to 201 while a caller-supplied
value always wins; every other alias passes the caller's options through
unchanged, leaving `expectedStatus` exactly as the caller set it — in
particular unset, which the assertion step resolves to 200. -/
theorem aliases_expected_status_defaults (inst : SuperRest) (path : String)
    (body : Option String) (o : Option Options) :
    (SuperRest.create inst path body o =
      SuperRest.test inst (some "POST") path body
        (some { o.getD {} with
                expectedStatus := some ((o.getD {}).expectedStatus.getD 201) })) ∧
    SuperRest.read inst path o = SuperRest.test inst (some "GET") path none o ∧
    SuperRest.retrieve inst path o =
      SuperRest.test inst (some "GET") path none o ∧
    SuperRest.update inst path body o =
      SuperRest.test inst
        (some (jsOrString (o.getD {}).method inst.updateMethod)) path body
        (some (o.getD {})) ∧
    SuperRest.patch inst path body o =
      SuperRest.test inst (some "PATCH") path body o ∧
    SuperRest.delete inst path body o =
      SuperRest.test inst (some "DELETE") path body o ∧
    SuperRest.destroy inst path body o =
      SuperRest.test inst (some "DELETE") path body o ∧
    (∀ oo : Options, oo.expectedStatus = none →
      resolvedExpectedStatus oo = 200) := by
  refine ⟨?_, rfl, rfl, rfl, rfl, rfl, rfl, ?_⟩
  · have hmerge : ∀ oo : Options, lodashDefaultsStatus oo 201 =
        { oo with expectedStatus := some (oo.expectedStatus.getD 201) } := by
      intro oo
      rcases oo with ⟨es, ect, pp, m⟩
      rcases es with _ | s <;> simp [lodashDefaultsStatus]
    rw [SuperRest.create, hmerge]
  · intro oo h
    simp [resolvedExpectedStatus_eq_getD, h]

/-- C8 at concrete inputs: a bare `create` call expects 201, and a
caller-supplied `expectedStatus` overrides the alias default. -/
theorem aliases_expected_status_defaults_example :
    SuperRest.create ⟨none, "", "PUT"⟩ "/test" (some "body") none =
      SuperRest.test ⟨none, "", "PUT"⟩ (some "POST") "/test" (some "body")
        (some { expectedStatus := some 201 }) ∧
    SuperRest.create ⟨none, "", "PUT"⟩ "/test" (some "body")
        (some { expectedStatus := some 200 }) =
      SuperRest.test ⟨none, "", "PUT"⟩ (some "POST") "/test" (some "body")
        (some { expectedStatus := some 200 }) :=
  ⟨(aliases_expected_status_defaults ⟨none, "", "PUT"⟩ "/test" (some "body")
      none).1,
    (aliases_expected_status_defaults ⟨none, "", "PUT"⟩ "/test" (some "body")
      (some { expectedStatus := some 200 })).1⟩

/-- C9: `update` resolves its HTTP method as `options.method` when a
(non-empty) method is supplied per call, falling back to the instance
`updateMethod`, which the constructor itself defaults to `PUT` when no
(non-empty) value is given at construction. -/
theorem update_method_precedence (ctor : CtorOptions) (path : String)
    (body : Option String) (o : Options) :
    (∀ m, o.method = some m → m ≠ "" →
      SuperRest.update (SuperRest.new (some ctor)) path body (some o) =
        SuperRest.test (SuperRest.new (some ctor)) (some m) path body
          (some o)) ∧
    (o.method = none →
      SuperRest.update (SuperRest.new (some ctor)) path body (some o) =
        SuperRest.test (SuperRest.new (some ctor))
          (some (SuperRest.new (some ctor)).updateMethod) path body
          (some o)) ∧
    (ctor.updateMethod = none →
      (SuperRest.new (some ctor)).updateMethod = "PUT") ∧
    (∀ u, ctor.updateMethod = some u → u ≠ "" →
      (SuperRest.new (some ctor)).updateMethod = u) := by
  refine ⟨?_, ?_, ?_, ?_⟩
  · intro m hm hne
    simp [SuperRest.update, jsOrString, hm, hne]
  · intro hm
    simp [SuperRest.update, jsOrString, hm]
  · intro h
    simp [SuperRest.new, jsOrString, h]
  · intro u hu hne
    simp [SuperRest.new, jsOrString, hu, hne]

/-- C9 at concrete inputs: a per-call method wins over the constructed
`updateMethod`, and a bare constructor yields `PUT`. -/
theorem update_method_precedence_example :
    SuperRest.update (SuperRest.new (some { updateMethod := some "PATCH" }))
        "/test" none (some { method := some "POST" }) =
      SuperRest.test (SuperRest.new (some { updateMethod := some "PATCH" }))
        (some "POST") "/test" none (some { method := some "POST" }) ∧
    (SuperRest.new (some {})).updateMethod = "PUT" :=
  ⟨(update_method_precedence { updateMethod := some "PATCH" } "/test" none
      { method := some "POST" }).1 "POST" rfl (by decide),
    (update_method_precedence {} "/test" none {}).2.2.1 rfl⟩

/-- C10: a per-call `pathPrefix` of the empty string disables prefixing
entirely: the empty string is falsy, so the first branch is skipped, and
it is strictly equal to neither `undefined` nor `true`, so the instance
prefix is skipped too and the request path is the supplied path
unmodified — the behaviour of `false`, unlike an absent option, which
(with a non-empty instance prefix) prepends the instance prefix. -/
theorem empty_pathPrefix_disables_prefixing (inst : SuperRest)
    (method : Option String) (path : String) (body : Option String)
    (o : Options) :
    (o.pathPrefix = some (.str "") →
      resolveTestPath inst.pathPrefix o.pathPrefix path = path ∧
      resolveTestPath inst.pathPrefix o.pathPrefix path =
        resolveTestPath inst.pathPrefix (some (.boolean false)) path ∧
      (∀ c, SuperRest.test inst method path body (some o) = .ok c →
        c.path = path)) ∧
    (inst.pathPrefix ≠ "" →
      resolveTestPath inst.pathPrefix none path = inst.pathPrefix ++ path) := by
  constructor
  · intro h
    have h1 : resolveTestPath inst.pathPrefix o.pathPrefix path = path := by
      simp [resolveTestPath, h, jsTruthyPrefixOpt, PrefixVal.jsTruthy]
    refine ⟨h1, ?_, ?_⟩
    · rw [h1]
      simp [resolveTestPath, jsTruthyPrefixOpt, PrefixVal.jsTruthy]
    · intro c hc
      unfold SuperRest.test at hc
      by_cases hm : jsToLowerCase (jsOrString method "GET") ∈ supertestMethods
      · rw [if_neg (by simpa using hm)] at hc
        cases hc
        exact h1
      · rw [if_pos (by simpa using hm)] at hc
        cases hc
  · intro h
    simp [resolveTestPath, jsTruthyPrefixOpt, h]

/-- C10 at a concrete input: with instance prefix `/api`, an empty per-call
prefix issues the request to `/test` unmodified, where an absent option
would have issued it to `/api/test`. -/
theorem empty_pathPrefix_disables_prefixing_example :
    resolveTestPath "/api" (some (.str "")) "/test" = "/test" ∧
    resolveTestPath "/api" none "/test" = "/api/test" :=
  ⟨((empty_pathPrefix_disables_prefixing ⟨none, "/api", "PUT"⟩ none "/test"
      none { pathPrefix := some (.str "") }).1 rfl).1,
    (empty_pathPrefix_disables_prefixing ⟨none, "/api", "PUT"⟩ none "/test"
      none { pathPrefix := some (.str "") }).2 (by decide)⟩
